import Mathlib

set_option maxRecDepth 100000

/-!
Shallow embedding of the IdeaForge chat responder and chat-session state
(source: src/healq---centralized-ai-opd-management/DoctorBotPage.tsx, which
contains the DoctorBotPage presentation component with the useMedicalChat
hook, and the ChatService module with the SYMPTOM_MAP table and
ChatService.sendMessage).

Strings are modelled by Lean String; the JavaScript operations
String.prototype.toLowerCase and String.prototype.includes are embedded as
toLowerCase and strIncludes below, working on the underlying character
lists (ASCII lowering, which covers every keyword the code compares
against). The hospital directory MOCK_HOSPITALS is external reference data
imported from a constants module that is not part of the reviewed source,
so the responder is parameterised by the directory list; every theorem
quantifies over it.
-/

namespace HealQ

/-- Embedding of JavaScript String.prototype.toLowerCase, acting on the
character list of the string (Char.toLower lowers the ASCII range that all
compared keywords live in). -/
def toLowerCase (s : String) : String := String.mk (s.data.map Char.toLower)

/-- Contiguous-sublist test on character lists: hasInfix l sub is true when
sub occurs inside l. -/
def hasInfix : List Char → List Char → Bool
  | [], sub => sub.isEmpty
  | l@(_ :: xs), sub => sub.isPrefixOf l || hasInfix xs sub

/-- Embedding of JavaScript s.includes(sub): sub occurs as a contiguous
substring of s. -/
def strIncludes (s sub : String) : Bool := hasInfix s.data sub.data

/-- Doctor record (types.ts is not in the reviewed source; only the name is
ever relevant, and no doctor is ever attached to a response). -/
structure Doctor where
  name : String
deriving DecidableEq

/-- Department record: a department name together with its doctors. -/
structure Department where
  name : String
  doctors : List Doctor
deriving DecidableEq

/-- Hospital type tag: Government or Private. -/
inductive HospitalType where
  | Government : HospitalType
  | Private : HospitalType
deriving DecidableEq

/-- Hospital record of the static directory. -/
structure Hospital where
  name : String
  location : String
  state : String
  type : HospitalType
  opdTimings : String
  departments : List Department
deriving DecidableEq

/-- The action tags of ChatResponse (source lines 338-343). -/
inductive ChatAction where
  | BOOKING_REDIRECT : ChatAction
  | AMBULANCE_DISPATCH : ChatAction
deriving DecidableEq

/-- ChatResponse record (source lines 338-343): reply text, optional
suggested hospitals, optional suggested doctors, optional action tag. -/
structure ChatResponse where
  text : String
  suggestedHospitals : Option (List Hospital)
  suggestedDoctors : Option (List Doctor)
  action : Option ChatAction
deriving DecidableEq

/-- SYMPTOM_MAP (source lines 345-380), as an ordered association list: a
JavaScript Record with non-numeric string keys enumerates in declaration
order, which is the order below. -/
def SYMPTOM_MAP : List (String × String) :=
  [("heart", "Cardiology"),
   ("chest pain", "Cardiology"),
   ("breath", "Pulmonology"),
   ("cough", "Pulmonology"),
   ("skin", "Dermatology"),
   ("rash", "Dermatology"),
   ("acne", "Dermatology"),
   ("stomach", "Gastroenterology"),
   ("digest", "Gastroenterology"),
   ("bone", "Orthopedics"),
   ("fracture", "Orthopedics"),
   ("joint", "Orthopedics"),
   ("nerv", "Neurology"),
   ("brain", "Neurology"),
   ("kidney", "Nephrology"),
   ("urinary", "Urology"),
   ("child", "Pediatrics"),
   ("baby", "Pediatrics"),
   ("eye", "Ophthalmology"),
   ("vision", "Ophthalmology"),
   ("lady", "Gynecology"),
   ("woman", "Gynecology"),
   ("pregnant", "Obstetrics"),
   ("cancer", "Oncology"),
   ("sugar", "Endocrinology"),
   ("diabetes", "Endocrinology"),
   ("ent", "ENT"),
   ("ear", "ENT"),
   ("nose", "ENT"),
   ("throat", "ENT"),
   ("fever", "General Medicine"),
   ("cold", "General Medicine"),
   ("flu", "General Medicine"),
   ("headache", "General Medicine")]

/-- The emergency test of source line 391: the lower-cased message contains
one of the four emergency keywords. -/
def isEmergency (lowerMsg : String) : Bool :=
  strIncludes lowerMsg "emergency" || strIncludes lowerMsg "accident" ||
    strIncludes lowerMsg "ambulance" || strIncludes lowerMsg "bleeding"

/-- The department-detection loop of source lines 399-405: the first entry
of SYMPTOM_MAP whose key occurs in the lower-cased message gives the
department; the loop breaks at the first hit. -/
def detectDept (lowerMsg : String) : Option String :=
  (SYMPTOM_MAP.find? (fun kv => strIncludes lowerMsg kv.1)).map (fun kv => kv.2)

/-- Worker of setDedup: drops any element already seen, keeping the first
occurrence of each element in order. -/
def setDedupAux (seen : List String) : List String → List String
  | [] => []
  | x :: xs =>
      if x ∈ seen then setDedupAux seen xs
      else x :: setDedupAux (x :: seen) xs

/-- Embedding of the JavaScript Set-based deduplication
[...new Set(list)]: keeps the first occurrence of each element, in order. -/
def setDedup (l : List String) : List String := setDedupAux [] l

/-- The location-detection block of source lines 409-423: collect every
deduplicated directory state or location whose lower-cased form occurs in
the message, then append the three hardcoded city aliases, each regardless
of what was already collected. -/
def detectLocations (hospitals : List Hospital) (lowerMsg : String) : List String :=
  (setDedup ((hospitals.map (fun h => h.state)) ++ (hospitals.map (fun h => h.location)))).filter
      (fun loc => strIncludes lowerMsg (toLowerCase loc))
    ++ (if strIncludes lowerMsg "delhi" then ["Delhi"] else [])
    ++ (if strIncludes lowerMsg "mumbai" then ["Maharashtra"] else [])
    ++ (if strIncludes lowerMsg "bangalore" || strIncludes lowerMsg "bengaluru" then
          ["Karnataka"] else [])

/-- The fixed emergency reply text (source line 393). -/
def emergencyText : String :=
  "This sounds like an emergency! 🚨 I can help you dispatch an ambulance immediately. Please go to the Ambulance section or call 108."

/-- The fixed fallback reply text (source line 481). -/
def fallbackText : String :=
  "I can help you find a doctor or book an appointment. Please tell me your symptoms and your location (e.g., \x27Headache in Delhi\x27)."

/-- The reply text of the successful department branch (source line 468). -/
def successText (detectedDept : String) (locationsInMsg : List String) : String :=
  "I noticed you mentioned symptoms related to **" ++ detectedDept ++
    "**. Here are some top specialists " ++
    (if locationsInMsg.length > 0 then "near " ++ locationsInMsg.headD "" else "available") ++
    " for you. \n\nYou can book a token directly:"

/-- The reply text of the empty-result department branch (source line 474). -/
def noMatchText (detectedDept : String) : String :=
  "I understand you need a **" ++ detectedDept ++
    "** specialist, but I couldn\x27t find any hospitals matching your location criteria in our database. Try searching for a different city."

/-- The department filter predicate of source lines 429-431: the hospital
has a department whose lower-cased name contains the lower-cased detected
department. -/
def hospitalHasDept (detectedDept : String) (h : Hospital) : Bool :=
  h.departments.any (fun d => strIncludes (toLowerCase d.name) (toLowerCase detectedDept))

/-- The location filter predicate of source lines 435-437: some detected
location occurs in the lower-cased state or the lower-cased location of the
hospital. -/
def hospitalMatchesLocation (locationsInMsg : List String) (h : Hospital) : Bool :=
  locationsInMsg.any (fun loc =>
    strIncludes (toLowerCase h.state) (toLowerCase loc) ||
      strIncludes (toLowerCase h.location) (toLowerCase loc))

/-- The filtering of source lines 429-438: filter the directory by the
department predicate, then, when at least one location was detected,
further filter by the location predicate. -/
def relevantHospitals (hospitals : List Hospital) (lowerMsg detectedDept : String) :
    List Hospital :=
  if (detectLocations hospitals lowerMsg).length > 0 then
    (hospitals.filter (hospitalHasDept detectedDept)).filter
      (hospitalMatchesLocation (detectLocations hospitals lowerMsg))
  else hospitals.filter (hospitalHasDept detectedDept)

/-- The result cap of source line 464: the first three surviving
hospitals. -/
def topHospitals (hospitals : List Hospital) (lowerMsg detectedDept : String) :
    List Hospital :=
  (relevantHospitals hospitals lowerMsg detectedDept).take 3

/-- The department branch of ChatService.sendMessage (source lines
427-477): filter by department, filter by location when a location was
detected, take the first three, and answer with suggestions or with the
no-match text. The doctor-gathering loop of lines 441-461 intentionally
contributes nothing to the response and is therefore not represented. -/
def respondForDept (hospitals : List Hospital) (lowerMsg : String)
    (detectedDept : String) : ChatResponse :=
  if (topHospitals hospitals lowerMsg detectedDept).length > 0 then
    { text := successText detectedDept (detectLocations hospitals lowerMsg),
      suggestedHospitals := some (topHospitals hospitals lowerMsg detectedDept),
      suggestedDoctors := none,
      action := none }
  else
    { text := noMatchText detectedDept,
      suggestedHospitals := none,
      suggestedDoctors := none,
      action := none }

/-- ChatService.sendMessage (source lines 384-483), parameterised by the
hospital directory. The artificial 800ms delay is behaviourally invisible
and the language argument is never read. -/
def sendMessage (hospitals : List Hospital) (message : String)
    (language : String) : ChatResponse :=
  let lowerMsg := toLowerCase message
  if isEmergency lowerMsg then
    { text := emergencyText,
      suggestedHospitals := none,
      suggestedDoctors := none,
      action := some ChatAction.AMBULANCE_DISPATCH }
  else
    match detectDept lowerMsg with
    | some detectedDept => respondForDept hospitals lowerMsg detectedDept
    | none =>
        { text := fallbackText,
          suggestedHospitals := none,
          suggestedDoctors := none,
          action := none }

/-- Message role of the chat UI (source lines 23-27). -/
inductive Role where
  | user : Role
  | assistant : Role
deriving DecidableEq

/-- Chat message of the UI (source lines 23-27). -/
structure Message where
  role : Role
  content : String
  suggestions : Option (List Hospital)
deriving DecidableEq

/-- The state held by the useMedicalChat hook (source lines 73-76):
message list, loading flag, nullable error string. -/
structure SessionState where
  messages : List Message
  isLoading : Bool
  error : Option String
deriving DecidableEq

/-- The outcome of the awaited responder call inside
useMedicalChat.sendMessage: the promise either resolves with a
ChatResponse or rejects, surfacing an error string. -/
inductive SubmitOutcome where
  | success : ChatResponse → SubmitOutcome
  | failure : String → SubmitOutcome
deriving DecidableEq

/-- The synchronous prefix of useMedicalChat.sendMessage (source lines
80-83), before the responder is awaited: append the user message, set the
loading flag, clear the error. -/
def submitStart (s : SessionState) (userMessage : String) : SessionState :=
  { messages := s.messages ++ [{ role := Role.user, content := userMessage, suggestions := none }],
    isLoading := true,
    error := none }

/-- The continuation of useMedicalChat.sendMessage after the awaited call
(source lines 85-102): on success append the assistant message carrying the
reply text and suggestions, on failure record the error string; in both
cases clear the loading flag (the finally block). -/
def submitFinish (s : SessionState) (outcome : SubmitOutcome) : SessionState :=
  match outcome with
  | SubmitOutcome.success response =>
      { messages := s.messages ++
          [{ role := Role.assistant, content := response.text,
             suggestions := response.suggestedHospitals }],
        isLoading := false,
        error := s.error }
  | SubmitOutcome.failure errMsg =>
      { messages := s.messages,
        isLoading := false,
        error := some errMsg }

/-- One whole submission: the synchronous prefix followed by the
continuation for the given outcome of the responder call. -/
def submit (s : SessionState) (userMessage : String) (outcome : SubmitOutcome) : SessionState :=
  submitFinish (submitStart s userMessage) outcome

/-- useMedicalChat.clearChat (source lines 107-109): it resets the message
list to the empty list and touches nothing else. -/
def clearChat (s : SessionState) : SessionState :=
  { messages := [],
    isLoading := s.isLoading,
    error := s.error }

/-- useMedicalChat.clearError (source lines 111-113). -/
def clearError (s : SessionState) : SessionState :=
  { messages := s.messages,
    isLoading := s.isLoading,
    error := none }

/-- Restatement, in the words of the specification, of the set of
hospitals that survive the filtering of the department branch: hospitals
having a department whose name contains the detected department and, when
at least one location was detected, whose state or location contains at
least one detected location. The theorems below relate it to the nested
filtering the code performs (relevantHospitals). -/
def specSurvivors (hospitals : List Hospital) (lowerMsg detectedDept : String) :
    List Hospital :=
  hospitals.filter (fun h =>
    hospitalHasDept detectedDept h &&
      ((detectLocations hospitals lowerMsg).isEmpty ||
        hospitalMatchesLocation (detectLocations hospitals lowerMsg) h))

/-- A sample directory hospital used to instantiate universally quantified
theorems at concrete inputs. -/
def sampleHospital : Hospital :=
  { name := "City Care Hospital",
    location := "Saket",
    state := "Delhi",
    type := HospitalType.Private,
    opdTimings := "9:00 AM - 5:00 PM",
    departments := [{ name := "Cardiology", doctors := [] }] }

/-- A sample session state holding one message and a pending error. -/
def sampleErrorState : SessionState :=
  { messages := [{ role := Role.user, content := "hi", suggestions := none }],
    isLoading := false,
    error := some "Something went wrong. Please try again." }

/-! Helper lemmas shared by the claim theorems. -/

/-- List.find? returns the entry at index i whenever that entry satisfies
the predicate and every earlier entry fails it. -/
theorem find_first_hit {α : Type} (p : α → Bool) :
    ∀ (l : List α) (i : Nat) (hi : i < l.length),
      p (l.get ⟨i, hi⟩) = true →
      (∀ j, (hj : j < i) → p (l.get ⟨j, Nat.lt_trans hj hi⟩) = false) →
      l.find? p = some (l.get ⟨i, hi⟩) := by
  intro l
  induction l with
  | nil => intro i hi; exact absurd hi (Nat.not_lt_zero i)
  | cons x xs ih =>
    intro i hi hp hfirst
    cases i with
    | zero =>
        have hp0 : p x = true := hp
        simp [List.find?_cons, hp0]
    | succ n =>
        have hx : p x = false := hfirst 0 (Nat.succ_pos n)
        rw [List.find?_cons, hx]
        exact ih n (Nat.lt_of_succ_lt_succ hi) hp
          (fun j hj => hfirst (j + 1) (Nat.succ_lt_succ hj))

/-- An element of the input list survives setDedupAux provided it is not
among the already-seen elements. -/
theorem mem_setDedupAux (a : String) :
    ∀ (l seen : List String), a ∈ l → a ∉ seen → a ∈ setDedupAux seen l := by
  intro l
  induction l with
  | nil => intro seen ha _; cases ha
  | cons x xs ih =>
    intro seen ha hseen
    unfold setDedupAux
    by_cases hax : a = x
    · subst hax
      rw [if_neg hseen]
      exact List.mem_cons_self _ _
    · have hmem : a ∈ xs := by
        rcases List.mem_cons.mp ha with h | h
        · exact absurd h hax
        · exact h
      by_cases hx : x ∈ seen
      · rw [if_pos hx]
        exact ih seen hmem hseen
      · rw [if_neg hx]
        refine List.mem_cons_of_mem _ (ih (x :: seen) hmem ?_)
        intro hc
        rcases List.mem_cons.mp hc with h | h
        · exact hax h
        · exact hseen h

/-- setDedup keeps every element of its input. -/
theorem mem_setDedup {a : String} {l : List String} (ha : a ∈ l) : a ∈ setDedup l :=
  mem_setDedupAux a l [] ha (List.not_mem_nil a)

/-- Zeta-reduced form of sendMessage, used to rewrite under the local
binding of the lower-cased message. -/
theorem sendMessage_unfold (hospitals : List Hospital) (message language : String) :
    sendMessage hospitals message language =
      if isEmergency (toLowerCase message) = true then
        { text := emergencyText,
          suggestedHospitals := none,
          suggestedDoctors := none,
          action := some ChatAction.AMBULANCE_DISPATCH }
      else
        match detectDept (toLowerCase message) with
        | some detectedDept => respondForDept hospitals (toLowerCase message) detectedDept
        | none =>
            { text := fallbackText,
              suggestedHospitals := none,
              suggestedDoctors := none,
              action := none } := rfl

/-- A non-emergency message with a detected department is answered by the
department branch. -/
theorem sendMessage_dept_case (hospitals : List Hospital) (message language dept : String)
    (hne : isEmergency (toLowerCase message) = false)
    (hdept : detectDept (toLowerCase message) = some dept) :
    sendMessage hospitals message language =
      respondForDept hospitals (toLowerCase message) dept := by
  rw [sendMessage_unfold, hne, hdept]
  rfl

/-- The nested filtering performed by the code computes exactly the
specification-side survivor set. -/
theorem relevantHospitals_eq_specSurvivors (hospitals : List Hospital)
    (lowerMsg dept : String) :
    relevantHospitals hospitals lowerMsg dept = specSurvivors hospitals lowerMsg dept := by
  unfold relevantHospitals specSurvivors
  cases hlocs : detectLocations hospitals lowerMsg with
  | nil => simp [List.isEmpty]
  | cons a as =>
      rw [if_pos (by simp)]
      rw [List.filter_filter]
      simp only [List.isEmpty, Bool.false_or]
      apply List.filter_congr
      intro h _
      exact Bool.and_comm _ _

/-- Case analysis of the responder: every run lands in one of the four
return statements of the source (emergency, suggestions, no-match,
fallback). Shared by the totality and action-tag theorems. -/
theorem sendMessage_shape (hospitals : List Hospital) (message language : String) :
    sendMessage hospitals message language =
        { text := emergencyText,
          suggestedHospitals := none,
          suggestedDoctors := none,
          action := some ChatAction.AMBULANCE_DISPATCH } ∨
      (∃ dept, sendMessage hospitals message language =
        { text := successText dept (detectLocations hospitals (toLowerCase message)),
          suggestedHospitals := some (topHospitals hospitals (toLowerCase message) dept),
          suggestedDoctors := none,
          action := none }) ∨
      (∃ dept, sendMessage hospitals message language =
        { text := noMatchText dept,
          suggestedHospitals := none,
          suggestedDoctors := none,
          action := none }) ∨
      sendMessage hospitals message language =
        { text := fallbackText,
          suggestedHospitals := none,
          suggestedDoctors := none,
          action := none } := by
  rw [sendMessage_unfold]
  cases he : isEmergency (toLowerCase message) with
  | true =>
      left
      rw [if_pos rfl]
  | false =>
      rw [if_neg (by simp)]
      cases hd : detectDept (toLowerCase message) with
      | none => right; right; right; rfl
      | some dept =>
          unfold respondForDept
          dsimp only
          by_cases htop : (topHospitals hospitals (toLowerCase message) dept).length > 0
          · rw [if_pos htop]
            right; left
            exact ⟨dept, rfl⟩
          · rw [if_neg htop]
            right; right; left
            exact ⟨dept, rfl⟩

/-! Claim theorems. -/

/-- C1: every message whose lower-cased text contains one of the keywords
emergency, accident, ambulance or bleeding is answered immediately with
the fixed emergency reply, action tag AMBULANCE_DISPATCH and no suggested
hospitals, whatever else the message contains. -/
theorem emergency_short_circuits (hospitals : List Hospital) (message language : String)
    (h : strIncludes (toLowerCase message) "emergency" = true ∨
         strIncludes (toLowerCase message) "accident" = true ∨
         strIncludes (toLowerCase message) "ambulance" = true ∨
         strIncludes (toLowerCase message) "bleeding" = true) :
    sendMessage hospitals message language =
      { text := emergencyText,
        suggestedHospitals := none,
        suggestedDoctors := none,
        action := some ChatAction.AMBULANCE_DISPATCH } := by
  have he : isEmergency (toLowerCase message) = true := by
    unfold isEmergency
    rcases h with h | h | h | h <;> simp [h]
  rw [sendMessage_unfold, he]
  rfl

/-- C1 witness: a concrete message containing an emergency keyword, a
department keyword and a location keyword takes the emergency branch. -/
theorem emergency_short_circuits_witness :
    (strIncludes (toLowerCase "Accident with bleeding, heart pain, in Delhi") "emergency" = true ∨
     strIncludes (toLowerCase "Accident with bleeding, heart pain, in Delhi") "accident" = true ∨
     strIncludes (toLowerCase "Accident with bleeding, heart pain, in Delhi") "ambulance" = true ∨
     strIncludes (toLowerCase "Accident with bleeding, heart pain, in Delhi") "bleeding" = true) ∧
    sendMessage [sampleHospital] "Accident with bleeding, heart pain, in Delhi" "en" =
      { text := emergencyText,
        suggestedHospitals := none,
        suggestedDoctors := none,
        action := some ChatAction.AMBULANCE_DISPATCH } :=
  ⟨by decide,
   emergency_short_circuits [sampleHospital] "Accident with bleeding, heart pain, in Delhi" "en"
     (by decide)⟩

/-- C2: for a message whose lower-cased text contains the key of entry i of
SYMPTOM_MAP and no key of an earlier entry, the detected department is the
department of entry i: detection follows declaration order and stops at the
first hit, so no later department can be produced. -/
theorem detectDept_first_keyword (message : String) (i : Nat) (hi : i < SYMPTOM_MAP.length)
    (hmatch : strIncludes (toLowerCase message) (SYMPTOM_MAP.get ⟨i, hi⟩).1 = true)
    (hfirst : ∀ j, (hj : j < i) →
      strIncludes (toLowerCase message) (SYMPTOM_MAP.get ⟨j, Nat.lt_trans hj hi⟩).1 = false) :
    detectDept (toLowerCase message) = some (SYMPTOM_MAP.get ⟨i, hi⟩).2 := by
  unfold detectDept
  rw [find_first_hit (fun kv => strIncludes (toLowerCase message) kv.1)
    SYMPTOM_MAP i hi hmatch hfirst]
  rfl

/-- C2 witness: the message mentions skin (Dermatology, entry 4) before
heart (Cardiology, entry 0) in its text, yet the earliest-declared matching
key heart wins. -/
theorem detectDept_first_keyword_witness :
    strIncludes (toLowerCase "My skin rash and heart") "heart" = true ∧
    detectDept (toLowerCase "My skin rash and heart") = some "Cardiology" :=
  ⟨by decide,
   detectDept_first_keyword "My skin rash and heart" 0 (by decide) (by decide)
     (fun j hj => absurd hj (Nat.not_lt_zero j))⟩

/-- C5: a message with no emergency keyword and no SYMPTOM_MAP keyword in
its lower-cased text is answered by exactly the fixed fallback prompt, with
no suggested hospitals and no action tag, whatever locations it may
mention. -/
theorem fallback_when_no_keyword (hospitals : List Hospital) (message language : String)
    (hne : isEmergency (toLowerCase message) = false)
    (hnokw : ∀ kv, kv ∈ SYMPTOM_MAP → strIncludes (toLowerCase message) kv.1 = false) :
    sendMessage hospitals message language =
      { text := fallbackText,
        suggestedHospitals := none,
        suggestedDoctors := none,
        action := none } := by
  have hdept : detectDept (toLowerCase message) = none := by
    unfold detectDept
    rw [List.find?_eq_none.mpr (fun kv hkv => by rw [hnokw kv hkv]; simp)]
    rfl
  rw [sendMessage_unfold, hne, hdept]
  rfl

/-- C5 witness: a message that names a location alias but no keyword gets
the fallback reply. -/
theorem fallback_when_no_keyword_witness :
    isEmergency (toLowerCase "hello from delhi") = false ∧
    (∀ kv, kv ∈ SYMPTOM_MAP → strIncludes (toLowerCase "hello from delhi") kv.1 = false) ∧
    sendMessage [sampleHospital] "hello from delhi" "en" =
      { text := fallbackText,
        suggestedHospitals := none,
        suggestedDoctors := none,
        action := none } :=
  ⟨by decide, by decide,
   fallback_when_no_keyword [sampleHospital] "hello from delhi" "en" (by decide) (by decide)⟩

/-- C3: for a non-emergency message with detected department dept, the
response carries a suggested-hospital list exactly when some hospital
survives the filtering, the list is the first at-most-three survivors in
original directory order (a sublist of the directory of length at most 3),
and when no hospital survives the reply is the could-not-match text with no
suggestions attached. The survivor set is the specification-side filter:
department-name containment, and, when at least one location was detected,
state-or-location containment of some detected location. -/
theorem dept_branch_filtering (hospitals : List Hospital) (message language dept : String)
    (hne : isEmergency (toLowerCase message) = false)
    (hdept : detectDept (toLowerCase message) = some dept) :
    (specSurvivors hospitals (toLowerCase message) dept ≠ [] →
       (sendMessage hospitals message language).suggestedHospitals =
         some ((specSurvivors hospitals (toLowerCase message) dept).take 3)) ∧
    (specSurvivors hospitals (toLowerCase message) dept = [] →
       (sendMessage hospitals message language).suggestedHospitals = none ∧
       (sendMessage hospitals message language).text = noMatchText dept) ∧
    List.Sublist ((specSurvivors hospitals (toLowerCase message) dept).take 3) hospitals ∧
    ((specSurvivors hospitals (toLowerCase message) dept).take 3).length ≤ 3 := by
  rw [sendMessage_dept_case hospitals message language dept hne hdept]
  have htop : topHospitals hospitals (toLowerCase message) dept =
      (specSurvivors hospitals (toLowerCase message) dept).take 3 := by
    unfold topHospitals
    rw [relevantHospitals_eq_specSurvivors]
  refine ⟨?_, ?_, ?_, ?_⟩
  · intro hnonempty
    have hlen : (topHospitals hospitals (toLowerCase message) dept).length > 0 := by
      rw [htop]
      refine List.length_pos.mpr ?_
      intro hcon
      rcases List.take_eq_nil_iff.mp hcon with h3 | h3
      · simp at h3
      · exact hnonempty h3
    unfold respondForDept
    rw [if_pos hlen, htop]
  · intro hnil
    have hlen : ¬ (topHospitals hospitals (toLowerCase message) dept).length > 0 := by
      rw [htop, hnil]
      simp
    unfold respondForDept
    rw [if_neg hlen]
    exact ⟨rfl, rfl⟩
  · exact (List.take_sublist _ _).trans
      (by unfold specSurvivors; exact List.filter_sublist _)
  · rw [List.length_take]
    exact inf_le_left

/-- C3 witness: a concrete non-emergency Cardiology message over a
one-hospital directory, with the two hypotheses discharged by
computation. -/
theorem dept_branch_filtering_witness :
    isEmergency (toLowerCase "heart problem") = false ∧
    detectDept (toLowerCase "heart problem") = some "Cardiology" ∧
    ((specSurvivors [sampleHospital] (toLowerCase "heart problem") "Cardiology" ≠ [] →
        (sendMessage [sampleHospital] "heart problem" "en").suggestedHospitals =
          some ((specSurvivors [sampleHospital] (toLowerCase "heart problem") "Cardiology").take 3)) ∧
     (specSurvivors [sampleHospital] (toLowerCase "heart problem") "Cardiology" = [] →
        (sendMessage [sampleHospital] "heart problem" "en").suggestedHospitals = none ∧
        (sendMessage [sampleHospital] "heart problem" "en").text = noMatchText "Cardiology") ∧
     List.Sublist ((specSurvivors [sampleHospital] (toLowerCase "heart problem") "Cardiology").take 3)
       [sampleHospital] ∧
     ((specSurvivors [sampleHospital] (toLowerCase "heart problem") "Cardiology").take 3).length ≤ 3) :=
  ⟨by decide, by decide,
   dept_branch_filtering [sampleHospital] "heart problem" "en" "Cardiology" (by decide) (by decide)⟩

/-- C4: the detected-location candidate list contains every directory state
value and every directory location value whose lower-cased form occurs in
the lower-cased message; Delhi is a member when the message contains delhi,
Maharashtra when it contains mumbai, Karnataka when it contains bangalore
or bengaluru; and the aliases are appended even when the same value was
already collected from the directory, as the concrete duplicate in the last
conjunct shows (state Delhi plus alias delhi gives Delhi twice, no
deduplication of the result). -/
theorem detectLocations_collects (hospitals : List Hospital) (message : String) :
    (∀ h, h ∈ hospitals →
        (strIncludes (toLowerCase message) (toLowerCase h.state) = true →
          h.state ∈ detectLocations hospitals (toLowerCase message)) ∧
        (strIncludes (toLowerCase message) (toLowerCase h.location) = true →
          h.location ∈ detectLocations hospitals (toLowerCase message))) ∧
    (strIncludes (toLowerCase message) "delhi" = true →
      "Delhi" ∈ detectLocations hospitals (toLowerCase message)) ∧
    (strIncludes (toLowerCase message) "mumbai" = true →
      "Maharashtra" ∈ detectLocations hospitals (toLowerCase message)) ∧
    ((strIncludes (toLowerCase message) "bangalore" = true ∨
        strIncludes (toLowerCase message) "bengaluru" = true) →
      "Karnataka" ∈ detectLocations hospitals (toLowerCase message)) ∧
    detectLocations [sampleHospital] (toLowerCase "skin in delhi") = ["Delhi", "Delhi"] := by
  refine ⟨?_, ?_, ?_, ?_, by decide⟩
  · intro h hmem
    constructor
    · intro hst
      have hdir : h.state ∈ (setDedup ((hospitals.map (fun h => h.state)) ++
          (hospitals.map (fun h => h.location)))).filter
            (fun loc => strIncludes (toLowerCase message) (toLowerCase loc)) := by
        refine List.mem_filter.mpr ⟨mem_setDedup (List.mem_append.mpr (Or.inl ?_)), hst⟩
        exact List.mem_map.mpr ⟨h, hmem, rfl⟩
      unfold detectLocations
      simp only [List.mem_append]
      exact Or.inl (Or.inl (Or.inl hdir))
    · intro hloc
      have hdir : h.location ∈ (setDedup ((hospitals.map (fun h => h.state)) ++
          (hospitals.map (fun h => h.location)))).filter
            (fun loc => strIncludes (toLowerCase message) (toLowerCase loc)) := by
        refine List.mem_filter.mpr ⟨mem_setDedup (List.mem_append.mpr (Or.inr ?_)), hloc⟩
        exact List.mem_map.mpr ⟨h, hmem, rfl⟩
      unfold detectLocations
      simp only [List.mem_append]
      exact Or.inl (Or.inl (Or.inl hdir))
  · intro hd
    unfold detectLocations
    simp [hd]
  · intro hm
    unfold detectLocations
    simp [hm]
  · intro hk
    unfold detectLocations
    rcases hk with hk | hk <;> simp [hk]

/-- C4 witness: over a one-hospital directory whose state is Delhi, the
message mentions delhi; the state is collected from the directory and the
alias Delhi is also a member. -/
theorem detectLocations_collects_witness :
    strIncludes (toLowerCase "rash in delhi") (toLowerCase sampleHospital.state) = true ∧
    sampleHospital.state ∈ detectLocations [sampleHospital] (toLowerCase "rash in delhi") ∧
    strIncludes (toLowerCase "rash in delhi") "delhi" = true ∧
    "Delhi" ∈ detectLocations [sampleHospital] (toLowerCase "rash in delhi") :=
  ⟨by decide,
   ((detectLocations_collects [sampleHospital] "rash in delhi").1 sampleHospital
       (by decide)).1 (by decide),
   by decide,
   (detectLocations_collects [sampleHospital] "rash in delhi").2.1 (by decide)⟩

/-- C6: the language code passed to the responder never influences the
returned ChatResponse; any two language codes give the same response on
every message and every directory. -/
theorem language_noninterference (hospitals : List Hospital) (message l1 l2 : String) :
    sendMessage hospitals message l1 = sendMessage hospitals message l2 := rfl

/-- C7: the responder is total: on every directory, message and language it
returns a ChatResponse, always one of the four return statements of the
source; the embedding has no error value to return, matching the absence of
any throwing path in the code (the only awaited step is the fixed
artificial delay). -/
theorem sendMessage_total (hospitals : List Hospital) (message language : String) :
    sendMessage hospitals message language =
        { text := emergencyText,
          suggestedHospitals := none,
          suggestedDoctors := none,
          action := some ChatAction.AMBULANCE_DISPATCH } ∨
      (∃ dept, sendMessage hospitals message language =
        { text := successText dept (detectLocations hospitals (toLowerCase message)),
          suggestedHospitals := some (topHospitals hospitals (toLowerCase message) dept),
          suggestedDoctors := none,
          action := none }) ∨
      (∃ dept, sendMessage hospitals message language =
        { text := noMatchText dept,
          suggestedHospitals := none,
          suggestedDoctors := none,
          action := none }) ∨
      sendMessage hospitals message language =
        { text := fallbackText,
          suggestedHospitals := none,
          suggestedDoctors := none,
          action := none } :=
  sendMessage_shape hospitals message language

/-- C10: whenever the response carries an action tag it is
AMBULANCE_DISPATCH and the response carries no suggested hospitals;
equivalently, every response has either no action or the ambulance action
without suggestions, so the declared BOOKING_REDIRECT tag is never
produced. -/
theorem action_only_ambulance (hospitals : List Hospital) (message language : String) :
    (sendMessage hospitals message language).action = none ∨
    ((sendMessage hospitals message language).action = some ChatAction.AMBULANCE_DISPATCH ∧
      (sendMessage hospitals message language).suggestedHospitals = none) := by
  rcases sendMessage_shape hospitals message language with h | ⟨dept, h⟩ | ⟨dept, h⟩ | h <;>
    rw [h]
  · right
    exact ⟨rfl, rfl⟩
  · left; rfl
  · left; rfl
  · left; rfl

/-- C8 counterexample: on a session state holding one message and a pending
error string, clearChat empties the message list but leaves the error
untouched, so the claim that reset empties both the message list and the
error fails at this concrete state. -/
theorem clearChat_leaves_error_counterexample :
    ((clearChat sampleErrorState).messages = [] ∧
      (clearChat sampleErrorState).error = none) = False :=
  eq_false (by decide)

/-- C8 amended: from every session state, reset empties the message list
and leaves the stored error unchanged (the error is cleared only by
clearError or by the next submission); a subsequent submission starts from
a fresh history containing just the new user message. -/
theorem clearChat_amended (s : SessionState) (userMessage : String) :
    (clearChat s).messages = [] ∧
    (clearChat s).error = s.error ∧
    (submitStart (clearChat s) userMessage).messages =
      [{ role := Role.user, content := userMessage, suggestions := none }] :=
  ⟨rfl, rfl, rfl⟩

/-- C9: when the responder call of a submission rejects, the user message
appended at the start of the submission stays in the message list with no
assistant message after it, the error string is set, the loading flag is
cleared; and every submission clears the previous error synchronously
before the responder is invoked. -/
theorem submit_failure_behavior (s : SessionState) (userMessage errMsg : String) :
    (submit s userMessage (SubmitOutcome.failure errMsg)).messages =
      s.messages ++ [{ role := Role.user, content := userMessage, suggestions := none }] ∧
    (submit s userMessage (SubmitOutcome.failure errMsg)).error = some errMsg ∧
    (submit s userMessage (SubmitOutcome.failure errMsg)).isLoading = false ∧
    (submitStart s userMessage).error = none :=
  ⟨rfl, rfl, rfl, rfl⟩

end HealQ
